import Mathlib

/-!
Verification of the BeTer command-line assistant (beter.py) against its
natural-language specification.  The Python source is shallowly embedded:
pure string helpers become Lean functions on `String`; calls into external
systems (the HTTP inference service, the `ollama` child process, the
filesystem, interactive input) are modelled by explicit outcome values fed
to the embedded functions, and JSON (de)serialisation performed by the
`json` library is modelled by the parse outcome of a text
(`JsonText.valid v` means the text parses to the value `v`,
`JsonText.invalid raw` means parsing raises `JSONDecodeError`).
-/

set_option autoImplicit false

namespace BeTer

/-- Whitespace test used by the Python `str.strip` method with no
arguments: the common ASCII whitespace characters plus the other Unicode
whitespace code points that Python treats as strippable. -/
def pyIsSpace (c : Char) : Bool :=
  c.toNat = 9 || c.toNat = 10 || c.toNat = 11 || c.toNat = 12 ||
  c.toNat = 13 || c.toNat = 28 || c.toNat = 29 || c.toNat = 30 ||
  c.toNat = 31 || c.toNat = 32 || c.toNat = 133 || c.toNat = 160 ||
  c.toNat = 0x1680 || (0x2000 ≤ c.toNat && c.toNat ≤ 0x200a) ||
  c.toNat = 0x2028 || c.toNat = 0x2029 || c.toNat = 0x202f ||
  c.toNat = 0x205f || c.toNat = 0x3000

/-- Embedding of the Python expression `text.strip()`: remove leading and
trailing whitespace characters. -/
def pyStrip (s : String) : String :=
  ⟨((s.data.dropWhile pyIsSpace).reverse.dropWhile pyIsSpace).reverse⟩

/-- Split a character list at every newline character, keeping empty
pieces, exactly as the Python expression `text.split(chr(10))` does: the
result always has one more piece than there are newline characters. -/
def splitCharList : List Char → List (List Char)
  | [] => [[]]
  | c :: cs =>
    if c = Char.ofNat 10 then
      [] :: splitCharList cs
    else
      match splitCharList cs with
      | [] => [[c]]
      | h :: t => (c :: h) :: t

/-- Embedding of the Python expression `text.split(chr(10))`. -/
def splitNL (s : String) : List String :=
  (splitCharList s.data).map (fun l => ⟨l⟩)

/-- Embedding of the Python expression `sep.join(parts)` for the newline
separator. -/
def joinNL : List String → String
  | [] => ""
  | [x] => x
  | x :: y :: t => x ++ "\n" ++ joinNL (y :: t)

/-- Embedding of the Python slice `xs[1:-1]`: every element except the
first and the last. -/
def sliceInner {α : Type} (xs : List α) : List α :=
  (xs.drop 1).dropLast

/-- The backtick character. -/
def btick : Char := Char.ofNat 96

/-- Embedding of the Python expression `text.startswith(3 backticks)`. -/
def startsWithFence (s : String) : Bool :=
  match s.data with
  | a :: b :: c :: _ => a = btick && b = btick && c = btick
  | _ => false

/-- Embedding of `clean_response` (beter.py, lines 40 to 43): if the text
starts with a triple-backtick fence, join all lines except the first and
the last and strip the result; otherwise strip the text. -/
def clean_response (text : String) : String :=
  if startsWithFence text then
    pyStrip (joinNL (sliceInner (splitNL text)))
  else
    pyStrip text

/-- Written from the words of the specification, section 4.3: if the text
begins with a triple-backtick fence marker, discard the first and the
last line of the text and trim surrounding whitespace from the remainder;
otherwise simply trim surrounding whitespace. -/
def normalize_spec (raw : String) : String :=
  if startsWithFence raw then
    pyStrip (joinNL (((splitNL raw).drop 1).dropLast))
  else
    pyStrip raw

/-- JSON values, as produced by the Python `json` library.  Numbers are
modelled as integers (no claim involves a fractional number), object
fields keep their textual order, and duplicate keys are resolved by the
lookup function below exactly as `json.loads` resolves them (last
occurrence wins). -/
inductive Json : Type where
  | null : Json
  | bool (b : Bool) : Json
  | num (n : Int) : Json
  | str (s : String) : Json
  | arr (elems : List Json) : Json
  | obj (fields : List (String × Json)) : Json

/-- A piece of text described by its JSON parse outcome: `valid v` stands
for a text that `json.loads` turns into the value `v`, `invalid raw` for a
text on which `json.loads` raises `JSONDecodeError`.  This models the
external `json` library without re-implementing its parser. -/
inductive JsonText : Type where
  | valid (v : Json) : JsonText
  | invalid (raw : String) : JsonText

/-- Python truthiness of a JSON value: `None`, `False`, `0`, the empty
string, the empty list and the empty dict are falsy, everything else is
truthy. -/
def jsonTruthy : Json → Bool
  | .null => false
  | .bool b => b
  | .num n => n != 0
  | .str s => s != ""
  | .arr l => !l.isEmpty
  | .obj l => !l.isEmpty

/-- Lookup of a key among the fields of a JSON object, with the last
occurrence winning, matching how `json.loads` builds a Python dict from
duplicate keys. -/
def lookupLast (k : String) : List (String × Json) → Option Json
  | [] => none
  | (k2, v) :: rest =>
    match lookupLast k rest with
    | some r => some r
    | none => if k2 = k then some v else none

/-- Python equality test between a value and a string, as used by the
operators `in` and `==`: true exactly when the value is that string. -/
def jsonIsStr (v : Json) (s : String) : Bool :=
  match v with
  | .str t => t = s
  | _ => false

/-- Embedding of the Python expression `name in installed` for a string
`name` and a list of arbitrary values. -/
def pyStrInList (name : String) (l : List Json) : Bool :=
  l.any (fun v => jsonIsStr v name)

/-- Embedding of the Python expression `config.get(k, d)`: on a dict,
return the value of `k` or the default `d`; on any non-dict value the
attribute access raises `AttributeError` (which no caller catches). -/
def pyDictGetD (v : Json) (k : String) (d : Json) : Except String Json :=
  match v with
  | .obj fields => .ok ((lookupLast k fields).getD d)
  | _ => .error ("AttributeError: get")

/-- Embedding of the Python expression `sep.join(args)` for a single
space separator, as in `chr(32).join(sys.argv[1:])`. -/
def joinSp : List String → String
  | [] => ""
  | [x] => x
  | x :: y :: t => x ++ " " ++ joinSp (y :: t)

/-- Fixed host constant `OLLAMA_HOST` (beter.py, line 12). -/
def OLLAMA_HOST : String := "http://localhost:11434"

/-- Fixed request timeout constant `REQUEST_TIMEOUT` (beter.py, line 13). -/
def REQUEST_TIMEOUT : Nat := 180

/-- Static model descriptor of one tier (beter.py, lines 15 to 26). -/
structure ModelInfo : Type where
  name : String
  ram_needed : String
  description : String

/-- The `standard` tier of the `MODELS` table. -/
def MODELS_standard : ModelInfo :=
  ⟨"llama3.2:3b", "~4GB", "Fast and reliable for most tasks."⟩

/-- The `high_quality` tier of the `MODELS` table. -/
def MODELS_high_quality : ModelInfo :=
  ⟨"gemma3:12b", "~8GB", "Slower, more advanced commands."⟩

/-- The fixed system instruction `BETER_SYSTEM_PROMPT` (beter.py, lines
28 to 37), transcribed verbatim. -/
def BETER_SYSTEM_PROMPT : String :=
  "\nYou are \x27BeTer\x27, a helpful and expert Linux terminal assistant.\n" ++
  "Your sole purpose is to translate a user\x27s plain English question into the single, most appropriate shell command.\n" ++
  "\nRULES:\n" ++
  "1.  ONLY provide the shell command as your response.\n" ++
  "2.  Do NOT include any explanations, apologies, code blocks (like ```bash), or introductory text.\n" ++
  "3.  If a user asks a question not about a Linux command, respond with: # Error: I can only provide Linux commands.\n" ++
  "4.  For potentially destructive commands (e.g., `rm`, `dd`, `mkfs`), add a comment line above the command starting with \x27# WARNING:\x27.\n"

/-- Embedding of `load_config` (beter.py, lines 45 to 49).  The config
file is modelled as `none` when absent and as `some` of the parse outcome
of its contents when present; a parse failure propagates as an error
(nothing in the program catches it). -/
def load_config : Option JsonText → Except String (Option Json)
  | none => .ok none
  | some (.valid v) => .ok (some v)
  | some (.invalid r) => .error ("JSONDecodeError: " ++ r)

/-- Embedding of `save_config` (beter.py, lines 51 to 54): the directory
creation aside, it writes the configuration serialised with `json.dump`,
so the resulting file content parses back to exactly the written value. -/
def save_config (config : Json) : JsonText :=
  .valid config

/-- Outcome of the liveness probe `requests.get(OLLAMA_HOST/api/tags,
timeout=3)`: either some HTTP response arrived (with any status code,
since `requests.get` does not raise on error statuses), or a
`RequestException` was raised (connection failure, timeout and so on),
carrying its message. -/
inductive ProbeOutcome : Type where
  | response (status : Nat) : ProbeOutcome
  | requestException (e : String) : ProbeOutcome

/-- Embedding of `OllamaManager.is_service_running` (beter.py, lines 62
to 68): true whenever the probe returned a response, false whenever it
raised a `RequestException`. -/
def is_service_running : ProbeOutcome → Bool
  | .response _ => true
  | .requestException _ => false

/-- Outcome of the child process `subprocess.run(["ollama", "list"],
capture_output=True, text=True, check=True)`: a zero exit with the lines
of `stdout.strip().split` on newlines, each modelled by its JSON parse
outcome; a nonzero exit (`CalledProcessError`); or a missing executable
(`FileNotFoundError`). -/
inductive ListOutcome : Type where
  | ok (lines : List JsonText) : ListOutcome
  | calledProcessError : ListOutcome
  | fileNotFound : ListOutcome

/-- Embedding of the Python list comprehension that maps `json.loads`
over the output lines: the first invalid line raises `JSONDecodeError`,
otherwise all parsed values are returned in order. -/
def parseAll : List JsonText → Except String (List Json)
  | [] => .ok []
  | .invalid r :: _ => .error ("JSONDecodeError: " ++ r)
  | .valid v :: rest => (parseAll rest).map (fun l => v :: l)

/-- Embedding of the Python list comprehension that extracts
`model[key]` for `key` the name field from every parsed record: a record
that is a dict lacking the key raises `KeyError`, a non-dict record
raises `TypeError`, and neither of those is caught by the caller. -/
def extractNames : List Json → Except String (List Json)
  | [] => .ok []
  | .obj fields :: rest =>
    match lookupLast "name" fields with
    | some v => (extractNames rest).map (fun l => v :: l)
    | none => .error ("KeyError: name")
  | _ :: _ => .error ("TypeError: not subscriptable")

/-- Embedding of `OllamaManager.get_installed_models` (beter.py, lines 70
to 78): the `except` clause catches exactly `CalledProcessError`,
`FileNotFoundError` and `JSONDecodeError`, turning them into the empty
list; an error raised while extracting the name fields propagates. -/
def get_installed_models : ListOutcome → Except String (List Json)
  | .calledProcessError => .ok []
  | .fileNotFound => .ok []
  | .ok lines =>
    match parseAll lines with
    | .error _ => .ok []
    | .ok vals => extractNames vals

/-- Outcome of the child process `ollama pull <model>`: exit code zero,
a nonzero exit code, or a missing executable caught by the
`FileNotFoundError` fallback. -/
inductive PullOutcome : Type where
  | ok : PullOutcome
  | exitNonzero : PullOutcome
  | fileNotFound : PullOutcome

/-- Embedding of `OllamaManager.pull_model` (beter.py, lines 80 to 95):
returns the lines printed and the boolean result. -/
def pull_model (model_name : String) (o : PullOutcome) : List String × Bool :=
  let head := "Pulling model \x27" ++ model_name ++ "\x27. This may take some time..."
  match o with
  | .ok => ([head, "\n✅ Model \x27" ++ model_name ++ "\x27 pulled successfully."], true)
  | .exitNonzero => ([head, "\n❌ Error pulling model. Please check your internet connection and try again."], false)
  | .fileNotFound => ([head, "❌ Error: \x27ollama\x27 command not found."], false)

/-- Outcome of `requests.post(OLLAMA_HOST/api/generate, ...)`: an HTTP
response with its status code and the JSON parse outcome of its body, or
a raised exception (connection failure, timeout) with its message. -/
inductive HttpOutcome : Type where
  | response (status : Nat) (body : JsonText) : HttpOutcome
  | exception (e : String) : HttpOutcome

/-- The fixed head of the sentinel string that `query_beter` returns on
any failure. -/
def errSentinel : String := "# Error: Failed to get response from Ollama: "

/-- Message of the `HTTPError` raised by `response.raise_for_status()`
for an error status, modelled after the message of the requests
library. -/
def statusErrText (status : Nat) : String :=
  Nat.repr status ++ " Error for url: " ++ OLLAMA_HOST ++ "/api/generate"

/-- Value of the Python expression
`clean_response(response.json().get(key, default).strip())` together with
the surrounding `try` block of `query_beter`: `raise_for_status` raises
for statuses 400 to 599, a body that is not valid JSON raises inside
`response.json()`, a non-dict body raises `AttributeError` on `.get`, a
non-string field value raises `AttributeError` on `.strip()`, and the
bare `except Exception` turns every one of those into the sentinel
string. -/
def http_result (h : HttpOutcome) : String :=
  match h with
  | .exception e => errSentinel ++ e
  | .response status body =>
    if 400 ≤ status ∧ status < 600 then
      errSentinel ++ statusErrText status
    else
      match body with
      | .invalid raw => errSentinel ++ ("JSONDecodeError: " ++ raw)
      | .valid (.obj fields) =>
        match lookupLast "response" fields with
        | none => clean_response (pyStrip "")
        | some (.str s) => clean_response (pyStrip s)
        | some _ => errSentinel ++ ("AttributeError: strip")
      | .valid _ => errSentinel ++ ("AttributeError: get")

/-- The string value that `response.json().get(k, d)` yields for the
modelled body field: the empty-string default when the field is absent,
the string itself when present as a string, and `none` when the field is
present but not a string (so that `.strip()` would raise). -/
def fieldStrD : Option Json → Option String
  | none => some ""
  | some (.str s) => some s
  | some _ => none

/-- The request payload built by `query_beter` (beter.py, lines 143 to
149): one generate call. -/
structure GenCall : Type where
  model : Json
  system : String
  prompt : String
  stream : Bool

/-- Embedding of `query_beter` (beter.py, lines 142 to 157): returns the
payload of the single generate request it issues together with the
string it returns for the given transport outcome. -/
def query_beter (model_name : Json) (user_prompt : String) (h : HttpOutcome) :
    GenCall × String :=
  (⟨model_name, BETER_SYSTEM_PROMPT, user_prompt, false⟩, http_result h)

/-- The external environment of one program run: the command-line
arguments after the program name, the state of the config file, and the
outcomes of every external interaction the run may perform. -/
structure World : Type where
  args : List String
  configFile : Option JsonText
  ollamaInstalled : Bool
  serviceRunning : Bool
  userInputs : List String
  listOutcome : ListOutcome
  pull : PullOutcome
  http : HttpOutcome

/-- Result of the `input` loop of the setup flow (beter.py, lines 123 to
125): the first entry of the input stream equal to the token for tier one
or tier two; `none` models an exhausted input stream, on which `input`
raises `EOFError`. -/
def firstChoice : List String → Option String
  | [] => none
  | x :: xs => if x = "1" || x = "2" then some x else firstChoice xs

/-- Outcome of `first_time_setup`: either the process terminated through
`sys.exit` with the given printed lines and exit code, or the setup
completed, returning the printed lines and the saved configuration. -/
inductive SetupOutcome : Type where
  | exited (prints : List String) (code : Nat) : SetupOutcome
  | done (prints : List String) (config : Json) : SetupOutcome

/-- Lines printed by the model menu of the setup flow (beter.py, lines
119 to 121). -/
def menuLines : List String :=
  ["\nPlease choose a model for BeTer based on your available RAM:",
   "1. Standard (" ++ MODELS_standard.ram_needed ++ "): " ++
     MODELS_standard.description ++ " (Model: " ++ MODELS_standard.name ++ ")",
   "2. High-Quality (" ++ MODELS_high_quality.ram_needed ++ "): " ++
     MODELS_high_quality.description ++ " (Model: " ++ MODELS_high_quality.name ++ ")"]

/-- Final steps of the setup flow (beter.py, lines 137 to 140): persist
the chosen model through `save_config` and return the configuration. -/
def setup_finish (prints : List String) (model_name : String) : SetupOutcome :=
  .done (prints ++ ["\n--- Setup Complete! You can now use BeTer. ---"])
    (.obj [("chosen_model", .str model_name)])

/-- Embedding of `first_time_setup` (beter.py, lines 98 to 140).  The
interactive prompt of `input` is not recorded among the printed lines;
an exhausted input stream and an uncaught error from the model listing
propagate as errors. -/
def first_time_setup (w : World) : Except String SetupOutcome :=
  let p0 := ["--- BeTer First-Time Setup ---"]
  if !w.ollamaInstalled then
    .ok (.exited (p0 ++
      ["❌ Error: Ollama is not installed.",
       "Please install it by running the following command in your terminal, then run BeTer again:",
       "\n  curl -fsSL https://ollama.com/install.sh | sh\n"]) 1)
  else if !w.serviceRunning then
    .ok (.exited (p0 ++
      ["❌ Error: Ollama is installed, but the service is not running.",
       "Please start the Ollama service in a separate terminal with the command:",
       "\n  ollama serve\n",
       "Then, you can run BeTer in another terminal."]) 1)
  else
    let p1 := p0 ++ ["✅ Ollama is installed and running."] ++ menuLines
    match firstChoice w.userInputs with
    | none => .error ("EOFError")
    | some choice =>
      let tier := if choice = "1" then MODELS_standard else MODELS_high_quality
      let model_name := tier.name
      match get_installed_models w.listOutcome with
      | .error e => .error e
      | .ok installed =>
        if !pyStrInList model_name installed then
          let pr := pull_model model_name w.pull
          if !pr.2 then
            .ok (.exited (p1 ++ pr.1) 1)
          else
            .ok (setup_finish (p1 ++ pr.1) model_name)
        else
          .ok (setup_finish
            (p1 ++ ["✅ Model \x27" ++ model_name ++ "\x27 is already installed."])
            model_name)

/-- Observable result of one run of `main`: the lines printed, the
payloads of the generate calls issued, and the process exit code. -/
structure MainRun : Type where
  prints : List String
  genCalls : List GenCall
  exitCode : Nat

/-- The usage text (beter.py, lines 161 to 163). -/
def usageLines : List String :=
  ["BeTer by Peter - Your AI Terminal Assistant",
   "Usage: beter \"<your question in plain English>\"",
   "Example: beter \"find all files larger than 100MB\""]

/-- The guidance printed in the configured state when the service is not
running (beter.py, line 176). -/
def serviceDownLine : String :=
  "❌ Error: Ollama service is not running. Please start it with \x27ollama serve\x27."

/-- The re-run hint printed after a completed first-time setup (beter.py,
line 171). -/
def hintLine (args : List String) : String :=
  "\nPlease run your command again:\n  beter \"" ++ joinSp args ++ "\""

/-- Condition of the usage branch (beter.py, line 160): fewer than two
entries in `sys.argv`, or a help flag as the first argument. -/
def wantsHelp (args : List String) : Bool :=
  args.isEmpty || args.head? = some "-h" || args.head? = some "--help"

/-- The unconfigured branch of `main` (beter.py, lines 167 to 172): run
the setup flow; when it completes, print the re-run hint and exit with
code 0.  No generate call is issued. -/
def setupRun (w : World) : Except String MainRun :=
  match first_time_setup w with
  | .error e => .error e
  | .ok (.exited ps c) => .ok ⟨ps, [], c⟩
  | .ok (.done ps _) => .ok ⟨ps ++ [hintLine w.args], [], 0⟩

/-- The configured branch of `main` with the service live (beter.py,
lines 179 to 183): read the chosen model with a fallback to the standard
tier, issue one generate call, print its result. -/
def configuredRun (v : Json) (args : List String) (h : HttpOutcome) :
    Except String MainRun :=
  match pyDictGetD v "chosen_model" (.str MODELS_standard.name) with
  | .error e => .error e
  | .ok model_to_use =>
    let r := query_beter model_to_use (joinSp args) h
    .ok ⟨[r.2], [r.1], 0⟩

/-- Embedding of `main` (beter.py, lines 159 to 183).  An uncaught Python
exception is modelled by the `error` case. -/
def main (w : World) : Except String MainRun :=
  if wantsHelp w.args then
    .ok ⟨usageLines, [], 0⟩
  else
    match load_config w.configFile with
    | .error e => .error e
    | .ok none => setupRun w
    | .ok (some v) =>
      if jsonTruthy v then
        if w.serviceRunning then
          configuredRun v w.args w.http
        else
          .ok ⟨[serviceDownLine], [], 1⟩
      else
        setupRun w

/-- Lines printed by a completed first-time setup in which the user picks
tier one and the standard model is already installed. -/
def setupPrintsStdInstalled : List String :=
  ["--- BeTer First-Time Setup ---", "✅ Ollama is installed and running."] ++
  menuLines ++
  ["✅ Model \x27" ++ MODELS_standard.name ++ "\x27 is already installed.",
   "\n--- Setup Complete! You can now use BeTer. ---"]

/-- C1: `clean_response` is a pure function that, on input not starting
with a triple-backtick marker, returns the input trimmed of surrounding
whitespace, and on input starting with a triple-backtick fence returns
the text with its first and last lines discarded and the remainder
trimmed; in particular the fenced example evaluates to the inner line.
Stated as a refinement: `clean_response` agrees everywhere with
`normalize_spec`, the function written from the words of the
specification. -/
theorem C1_clean_response_matches_spec :
    (∀ t : String, clean_response t = normalize_spec t) ∧
    clean_response ("```bash\necho hi\n```") = "echo hi" :=
  ⟨fun _ => rfl, by decide⟩

/-- C3: `is_service_running` is total (never raises) and boolean valued;
it returns false exactly when the liveness probe fails with a raised
request exception (network error or timeout), and any received HTTP
response counts as live. -/
theorem C3_is_service_running_never_raises :
    (∀ e, is_service_running (.requestException e) = false) ∧
    (∀ s, is_service_running (.response s) = true) :=
  ⟨fun _ => rfl, fun _ => rfl⟩

/-- C7: `load_config` returns nothing when the config file is absent,
returns the parsed record exactly when the file holds valid JSON such as
the record with the one chosen-model field, and propagates an unrecovered
parse error when the file exists but is not valid JSON. -/
theorem C7_load_config_cases :
    load_config none = .ok none ∧
    load_config (some (.valid (.obj [("chosen_model", .str "m")])))
      = .ok (some (.obj [("chosen_model", .str "m")])) ∧
    (∀ r, load_config (some (.invalid r)) = .error ("JSONDecodeError: " ++ r)) :=
  ⟨rfl, rfl, fun _ => rfl⟩

/-- C8: round-trip law: for every configuration record, saving it with
`save_config` and immediately loading with `load_config` returns exactly
the record that was saved. -/
theorem C8_save_load_round_trip :
    ∀ c : Json, load_config (some (save_config c)) = .ok (some c) :=
  fun _ => rfl

/-- C5: in the configured state (a truthy config was loaded), whenever
the service liveness check is false, `main` prints the guidance line,
exits with code 1, and issues no generate call. -/
theorem C5_service_down_exits_one (w : World) (v : Json)
    (hc : w.configFile = some (.valid v)) (ht : jsonTruthy v = true)
    (hs : w.serviceRunning = false) (ha : wantsHelp w.args = false) :
    main w = .ok ⟨[serviceDownLine], [], 1⟩ := by
  obtain ⟨args, cf, oi, sr, ui, lo, pu, http⟩ := w
  simp only at hc hs ha
  subst hc hs
  simp [main, load_config, ha, ht]

/-- A line that is not valid JSON anywhere in the listing output makes
the line-by-line parse raise `JSONDecodeError`. -/
theorem parseAll_error_of_invalid_mem (lines : List JsonText) (r : String)
    (h : JsonText.invalid r ∈ lines) : ∃ e, parseAll lines = .error e := by
  induction lines with
  | nil => cases h
  | cons x xs ih =>
    cases x with
    | invalid q => exact ⟨"JSONDecodeError: " ++ q, rfl⟩
    | valid v =>
      cases h with
      | tail _ h2 =>
        obtain ⟨e, he⟩ := ih h2
        exact ⟨e, by simp [parseAll, he, Except.map]⟩

/-- C4 counterexample: one output line that is a valid JSON record
lacking the name field makes `get_installed_models` raise an uncaught
`KeyError` instead of returning the empty sequence, contradicting the
claim that every malformed listing output degrades to an empty
sequence. -/
theorem C4_counterexample :
    get_installed_models (.ok [.valid (.obj [])]) = .error ("KeyError: name") ∧
    get_installed_models (.ok [.valid (.obj [])]) ≠ .ok [] :=
  ⟨rfl, fun h => Except.noConfusion h⟩

/-- C4 amended: `get_installed_models` extracts the name field of one
structured record per output line; it returns an empty sequence rather
than raising on a process failure, on a missing executable, and whenever
any output line is not valid JSON; but a line that parses to a record
lacking the name field raises an uncaught `KeyError` (and a line parsing
to a non-record raises an uncaught `TypeError`). -/
theorem C4_get_installed_models_amended :
    get_installed_models .calledProcessError = .ok [] ∧
    get_installed_models .fileNotFound = .ok [] ∧
    (∀ (lines : List JsonText) (r : String), JsonText.invalid r ∈ lines →
        get_installed_models (.ok lines) = .ok []) ∧
    (∀ (lines : List JsonText) (vals : List Json), parseAll lines = .ok vals →
        get_installed_models (.ok lines) = extractNames vals) ∧
    (∀ (fields : List (String × Json)) (rest : List Json),
        lookupLast "name" fields = none →
        extractNames (.obj fields :: rest) = .error ("KeyError: name")) ∧
    (∀ (fields : List (String × Json)) (v : Json) (rest : List Json),
        lookupLast "name" fields = some v →
        extractNames (.obj fields :: rest)
          = (extractNames rest).map (fun l => v :: l)) := by
  refine ⟨rfl, rfl, ?_, ?_, ?_, ?_⟩
  · intro lines r h
    obtain ⟨e, he⟩ := parseAll_error_of_invalid_mem lines r h
    simp [get_installed_models, he]
  · intro lines vals h
    simp [get_installed_models, h]
  · intro fields rest h
    simp [extractNames, h]
  · intro fields v rest h
    simp [extractNames, h]

/-- C4 witness: the amended facts applied at concrete listing outputs. -/
theorem C4_witness :
    get_installed_models (.ok [.invalid "NAME"]) = .ok [] ∧
    get_installed_models (.ok [.valid .null]) = extractNames [.null] ∧
    extractNames [.obj []] = .error ("KeyError: name") ∧
    extractNames [.obj [("name", .str "x")]]
      = (extractNames []).map (fun l => .str "x" :: l) :=
  ⟨C4_get_installed_models_amended.2.2.1 [.invalid "NAME"] "NAME" (List.Mem.head _),
   C4_get_installed_models_amended.2.2.2.1 [.valid .null] [.null] rfl,
   C4_get_installed_models_amended.2.2.2.2.1 [] [] rfl,
   C4_get_installed_models_amended.2.2.2.2.2 [("name", .str "x")] (.str "x") [] rfl⟩

/-- C5 witness: a concrete configured world with the service down. -/
theorem C5_witness :
    main ⟨["q"], some (.valid (.obj [("chosen_model", .str "m")])), true,
      false, [], .ok [], .ok, .exception "t"⟩ = .ok ⟨[serviceDownLine], [], 1⟩ :=
  C5_service_down_exits_one _ (.obj [("chosen_model", .str "m")]) rfl rfl rfl rfl

/-- C2 counterexample: on a successful response whose response field has
leading whitespace before a code fence, `query_beter` strips the field
before the fence check, so it returns the unfenced inner text rather than
the normalization of the field itself: the claim that it returns the
extracted field after normalization fails at this input. -/
theorem C2_counterexample :
    (query_beter (.str "m") "q"
      (.response 200 (.valid (.obj [("response", .str "  ```\nhi\n```")])))).2
      = "hi" ∧
    clean_response ("  ```\nhi\n```") ≠ "hi" :=
  ⟨rfl, by decide⟩

/-- C2 amended: `query_beter` never raises; on a successful HTTP response
whose body is a JSON record it extracts the response field (defaulting to
the empty string when absent), strips its surrounding whitespace, and
returns it after normalization; on a raised transport error or timeout it
returns the sentinel string made of the fixed error head and the
exception detail; on an error HTTP status it returns a string beginning
with that head; and in a configured live run whose generate call raises,
`main` prints exactly that sentinel and exits with code 0. -/
theorem C2_query_beter_amended :
    (∀ (m : Json) (p e : String),
        (query_beter m p (.exception e)).2 = errSentinel ++ e) ∧
    (∀ (m : Json) (p : String) (s : Nat) (body : JsonText),
        400 ≤ s → s < 600 →
        ∃ r, (query_beter m p (.response s body)).2 = errSentinel ++ r) ∧
    (∀ (m : Json) (p : String) (s : Nat) (fields : List (String × Json))
        (t : String),
        ¬(400 ≤ s ∧ s < 600) →
        fieldStrD (lookupLast "response" fields) = some t →
        (query_beter m p (.response s (.valid (.obj fields)))).2
          = clean_response (pyStrip t)) ∧
    (∀ (w : World) (fields : List (String × Json)) (e : String),
        w.configFile = some (.valid (.obj fields)) →
        jsonTruthy (.obj fields) = true →
        w.serviceRunning = true → wantsHelp w.args = false →
        w.http = .exception e →
        main w = .ok ⟨[errSentinel ++ e],
          [⟨(lookupLast "chosen_model" fields).getD (.str MODELS_standard.name),
            BETER_SYSTEM_PROMPT, joinSp w.args, false⟩], 0⟩) := by
  refine ⟨fun _ _ _ => rfl, ?_, ?_, ?_⟩
  · intro m p s body h1 h2
    refine ⟨statusErrText s, ?_⟩
    simp only [query_beter, http_result]
    rw [if_pos ⟨h1, h2⟩]
  · intro m p s fields t hs hf
    simp only [query_beter, http_result, if_neg hs]
    cases hL : lookupLast "response" fields with
    | none =>
      simp [hL, fieldStrD] at hf
      simp [← hf]
    | some v =>
      cases v <;> simp_all [fieldStrD]
  · intro w fields e hc ht hs ha hh
    obtain ⟨args, cf, oi, sr, ui, lo, pu, http⟩ := w
    simp only at hc hs ha hh
    subst hc hs hh
    simp [main, load_config, ha, ht, configuredRun, pyDictGetD, query_beter,
      http_result]

/-- C2 witness: the amended facts applied at concrete outcomes and at a
concrete configured world whose generate call raises a timeout. -/
theorem C2_witness :
    (query_beter (.str "m") "q" (.exception "timed out")).2
      = errSentinel ++ "timed out" ∧
    (∃ r, (query_beter (.str "m") "q" (.response 500 (.invalid "oops"))).2
      = errSentinel ++ r) ∧
    (query_beter (.str "m") "q"
      (.response 200 (.valid (.obj [("response", .str " ls ")])))).2
      = clean_response (pyStrip (" ls ")) ∧
    main ⟨["q"], some (.valid (.obj [("chosen_model", .str "m")])), true, true,
      [], .ok [], .ok, .exception "timed out"⟩
      = .ok ⟨[errSentinel ++ "timed out"],
          [⟨.str "m", BETER_SYSTEM_PROMPT, "q", false⟩], 0⟩ := by
  refine ⟨C2_query_beter_amended.1 (.str "m") "q" "timed out",
    C2_query_beter_amended.2.1 (.str "m") "q" 500 (.invalid "oops")
      (by decide) (by decide),
    C2_query_beter_amended.2.2.1 (.str "m") "q" 200
      [("response", .str " ls ")] (" ls ") (by decide) rfl,
    C2_query_beter_amended.2.2.2
      ⟨["q"], some (.valid (.obj [("chosen_model", .str "m")])), true, true,
        [], .ok [], .ok, .exception "timed out"⟩
      [("chosen_model", .str "m")] "timed out" rfl rfl rfl rfl rfl⟩

/-- C6 counterexample: in a configured live run whose response field has
leading whitespace before a code fence, the printed output is the inner
text of the fence, which differs from the normalization of the response
field itself: the claim that the printed output equals normalize of the
response field fails at this input. -/
theorem C6_counterexample :
    main ⟨["list files"], some (.valid (.obj [("chosen_model", .str "m")])),
      true, true, [], .ok [], .ok,
      .response 200 (.valid (.obj [("response", .str "  ```\nhi\n```")]))⟩
      = .ok ⟨["hi"], [⟨.str "m", BETER_SYSTEM_PROMPT, "list files", false⟩], 0⟩ ∧
    clean_response ("  ```\nhi\n```") ≠ "hi" :=
  ⟨rfl, by decide⟩

/-- C6 amended: in the configured state with the service live, `main`
makes exactly one generate call whose prompt equals all positional
arguments joined with single spaces, prints exactly the one result of
that call to standard output, and exits with code 0; on a successful
response the printed result equals the normalization of the
whitespace-stripped response field. -/
theorem C6_configured_run_amended :
    (∀ (w : World) (fields : List (String × Json)),
        w.configFile = some (.valid (.obj fields)) →
        jsonTruthy (.obj fields) = true →
        w.serviceRunning = true → wantsHelp w.args = false →
        main w = .ok ⟨[http_result w.http],
          [⟨(lookupLast "chosen_model" fields).getD (.str MODELS_standard.name),
            BETER_SYSTEM_PROMPT, joinSp w.args, false⟩], 0⟩) ∧
    (∀ (s : Nat) (fields : List (String × Json)) (t : String),
        ¬(400 ≤ s ∧ s < 600) →
        fieldStrD (lookupLast "response" fields) = some t →
        http_result (.response s (.valid (.obj fields)))
          = clean_response (pyStrip t)) := by
  constructor
  · intro w fields hc ht hs ha
    obtain ⟨args, cf, oi, sr, ui, lo, pu, http⟩ := w
    simp only at hc hs ha ⊢
    subst hc hs
    simp [main, load_config, ha, ht, configuredRun, pyDictGetD, query_beter]
  · intro s fields t hs hf
    simp only [http_result, if_neg hs]
    cases hL : lookupLast "response" fields with
    | none =>
      simp [hL, fieldStrD] at hf
      simp [← hf]
    | some v =>
      cases v <;> simp_all [fieldStrD]

/-- C6 witness: the amended facts applied at the concrete invocation with
the single argument of the scenario and a successful response. -/
theorem C6_witness :
    main ⟨["list files"], some (.valid (.obj [("chosen_model", .str "m")])),
      true, true, [], .ok [], .ok,
      .response 200 (.valid (.obj [("response", .str "ls -la")]))⟩
      = .ok ⟨[http_result (.response 200 (.valid (.obj [("response", .str "ls -la")])))],
          [⟨.str "m", BETER_SYSTEM_PROMPT, "list files", false⟩], 0⟩ ∧
    http_result (.response 200 (.valid (.obj [("response", .str "ls -la")])))
      = clean_response (pyStrip ("ls -la")) :=
  ⟨C6_configured_run_amended.1
    ⟨["list files"], some (.valid (.obj [("chosen_model", .str "m")])),
      true, true, [], .ok [], .ok,
      .response 200 (.valid (.obj [("response", .str "ls -la")]))⟩
    [("chosen_model", .str "m")] rfl rfl rfl rfl,
   C6_configured_run_amended.2 200 [("response", .str "ls -la")] ("ls -la")
     (by decide) rfl⟩

/-- C9: `main` tests the truthiness of the loaded value, not the presence
of the file, so a config file that exists and parses to a falsy value
(for example the empty object) is treated exactly like an absent config
file: the run is identical, and when the setup flow completes it exits
with code 0 after printing the re-run hint, with no generate call. -/
theorem C9_falsy_config_like_absent :
    (∀ (w : World) (v : Json), jsonTruthy v = false →
        main { w with configFile := some (.valid v) }
          = main { w with configFile := none }) ∧
    (∀ (w : World) (installed : List Json),
        w.configFile = some (.valid (.obj [])) →
        w.ollamaInstalled = true → w.serviceRunning = true →
        firstChoice w.userInputs = some "1" →
        get_installed_models w.listOutcome = .ok installed →
        pyStrInList MODELS_standard.name installed = true →
        wantsHelp w.args = false →
        main w = .ok ⟨setupPrintsStdInstalled ++ [hintLine w.args], [], 0⟩) := by
  constructor
  · intro w v hv
    obtain ⟨args, cf, oi, sr, ui, lo, pu, http⟩ := w
    by_cases hh : wantsHelp args
    · simp [main, hh]
    · simp [main, hh, load_config, hv, setupRun, first_time_setup]
  · intro w installed hc hi hs hch hlist hfound ha
    obtain ⟨args, cf, oi, sr, ui, lo, pu, http⟩ := w
    simp only at hc hi hs hch hlist ha ⊢
    subst hc hi hs
    simp only [ MODELS_standard] at hfound
    simp [main, load_config, ha, jsonTruthy, setupRun, first_time_setup, hch,
      hlist, hfound, setup_finish, setupPrintsStdInstalled, menuLines,
      MODELS_standard]

/-- C9 witness: the two facts applied at concrete worlds with an empty
JSON object in the config file. -/
theorem C9_witness :
    main { (⟨["x"], none, true, true, ["1"],
        .ok [.valid (.obj [("name", .str "llama3.2:3b")])], .ok,
        .exception "t"⟩ : World) with configFile := some (.valid (.obj [])) }
      = main { (⟨["x"], none, true, true, ["1"],
        .ok [.valid (.obj [("name", .str "llama3.2:3b")])], .ok,
        .exception "t"⟩ : World) with configFile := none } ∧
    main ⟨["x"], some (.valid (.obj [])), true, true, ["1"],
        .ok [.valid (.obj [("name", .str "llama3.2:3b")])], .ok,
        .exception "t"⟩
      = .ok ⟨setupPrintsStdInstalled ++ [hintLine ["x"]], [], 0⟩ :=
  ⟨C9_falsy_config_like_absent.1
    ⟨["x"], none, true, true, ["1"],
      .ok [.valid (.obj [("name", .str "llama3.2:3b")])], .ok, .exception "t"⟩
    (.obj []) rfl,
   C9_falsy_config_like_absent.2
    ⟨["x"], some (.valid (.obj [])), true, true, ["1"],
      .ok [.valid (.obj [("name", .str "llama3.2:3b")])], .ok, .exception "t"⟩
    [.str "llama3.2:3b"] rfl rfl rfl rfl rfl rfl rfl⟩

/-- C10: in the configured state with a truthy config record lacking the
chosen-model key, `main` does not fail: it issues its one generate call
with the standard tier identifier as a silent fallback model. -/
theorem C10_missing_key_fallback (w : World) (fields : List (String × Json))
    (hc : w.configFile = some (.valid (.obj fields)))
    (ht : jsonTruthy (.obj fields) = true)
    (hmiss : lookupLast "chosen_model" fields = none)
    (hs : w.serviceRunning = true) (ha : wantsHelp w.args = false) :
    main w = .ok ⟨[http_result w.http],
      [⟨.str "llama3.2:3b", BETER_SYSTEM_PROMPT, joinSp w.args, false⟩], 0⟩ := by
  obtain ⟨args, cf, oi, sr, ui, lo, pu, http⟩ := w
  simp only at hc hs ha ⊢
  subst hc hs
  simp [main, load_config, ha, ht, configuredRun, pyDictGetD, hmiss,
    query_beter, MODELS_standard]

/-- C10 witness: a concrete truthy config record without the chosen-model
key leads to a generate call with the standard model identifier. -/
theorem C10_witness :
    main ⟨["q"], some (.valid (.obj [("other", .num 1)])), true, true, [],
      .ok [], .ok, .exception "t"⟩
      = .ok ⟨[http_result (.exception "t")],
          [⟨.str "llama3.2:3b", BETER_SYSTEM_PROMPT, "q", false⟩], 0⟩ :=
  C10_missing_key_fallback
    ⟨["q"], some (.valid (.obj [("other", .num 1)])), true, true, [],
      .ok [], .ok, .exception "t"⟩
    [("other", .num 1)] rfl rfl rfl rfl rfl

end BeTer
